import Mathlib

/-!
Shallow embedding of the Move module `dao_addr::investdaov2` (InvestDAO).
u64 values are modelled as `Nat`; Move's abort-on-underflow is modelled
explicitly for the subtractions that can underflow, and every Move `abort`
(failed `assert!`, `table::borrow` on a missing key, `borrow_global` on a
missing resource, `coin::withdraw` with an insufficient balance, `move_to`
over an existing resource) is modelled as `Except.error`: an error result
commits no state at all, mirroring Move's transactional abort semantics.
Addresses are modelled as `Nat`; the AptosCoin ledger is an association
list of balances (CoinStore registration of ordinary accounts is
abstracted away: a missing entry reads as balance 0).
-/

namespace InvestDao

abbrev Addr := Nat

-- Constants of the Move module
def MIN_VOTES : Nat := 10
def VOTING_PERIOD : Nat := 604800
def EXECUTION_DELAY : Nat := 86400
def QUORUM_PERCENTAGE : Nat := 20
def INITIAL_TOKEN_SUPPLY : Nat := 1000000
def MIN_PROPOSAL_AMOUNT : Nat := 1000
def PARTICIPATION_REWARD : Nat := 10

def CATEGORY_FUNDING : Nat := 0
def CATEGORY_GOVERNANCE : Nat := 1
def CATEGORY_EMERGENCY : Nat := 2

/-- Abort reasons.  The first block mirrors the module's `E_*` error-code
constants; the remaining constructors model aborts raised inside the Aptos
framework or the Move VM (coin withdrawal, table lookup, resource access,
u64 subtraction underflow). -/
inductive DaoError where
  | notAuthorized
  | proposalNotOpen
  | alreadyVoted
  | votingEnded
  | insufficientBalance
  | proposalNotReady
  | insufficientTokens
  | quorumNotMet
  | proposalAlreadyExecuted
  | insufficientFunds
  | daoPaused
  | proposalTooSmall
  | invalidCategory
  | coinInsufficientBalance
  | tableNotFound
  | missingData
  | resourceExists
  | arithmeticUnderflow
deriving DecidableEq

structure GovernanceToken where
  balance : Nat
  staked_balance : Nat
  last_claim_time : Nat
  total_earned : Nat
deriving DecidableEq

structure DAOMember where
  governance_tokens : GovernanceToken
  proposals_created : Nat
  votes_cast : Nat
  member_since : Nat
  reputation_score : Nat
deriving DecidableEq

structure InvestmentProposal where
  id : Nat
  title : String
  description : String
  category : Nat
  recipient : Addr
  requested_amount : Nat
  yes_votes : Nat
  no_votes : Nat
  proposer : Addr
  creation_time : Nat
  voting_end_time : Nat
  execution_time : Nat
  status : Nat
  voters : List (Addr × Nat)
  executed : Bool
deriving DecidableEq

/-- `DAOTreasury` without the `treasury_signer_cap` capability field, which
carries no data relevant to the state machine (it only authorizes the
withdrawal performed inside `execute_proposal`). -/
structure DAOTreasury where
  proposals : List (Nat × InvestmentProposal)
  proposal_count : Nat
  total_funds : Nat
  total_governance_tokens : Nat
  staked_tokens : Nat
  admin : Addr
  governance_threshold : Nat
  paused : Bool
deriving DecidableEq

inductive DaoEvent where
  | proposalCreated (proposal_id : Nat) (proposer : Addr) (title : String)
      (category : Nat) (requested_amount : Nat)
  | voteCast (proposal_id : Nat) (voter : Addr) (vote : Bool)
      (voting_power : Nat) (reward_earned : Nat)
  | proposalExecuted (proposal_id : Nat) (result : Nat) (amount_transferred : Nat)
  | fundsDeposited (depositor : Addr) (amount : Nat)
  | tokensStaked (staker : Addr) (amount : Nat)
  | tokensDistributed (recipient : Addr) (amount : Nat) (reason : String)
  | emergencyAction (admin : Addr) (action : String) (paused : Bool)
deriving DecidableEq

/-- Global state: the treasury resource (at `treasury_addr`), the
`DAOMember` resources, the AptosCoin balances, and the emitted events. -/
structure DaoState where
  treasury_addr : Addr
  treasury : DAOTreasury
  members : List (Addr × DAOMember)
  coin_balances : List (Addr × Nat)
  events : List DaoEvent
deriving DecidableEq

/-- Association-list lookup with `Nat` keys (tables / resource storage). -/
def alookup {β : Type} : List (Nat × β) → Nat → Option β
  | [], _ => none
  | (k', v) :: rest, k => if k = k' then some v else alookup rest k

/-- Association-list upsert: replaces the first binding of the key, or
appends a fresh binding. -/
def aset {β : Type} : List (Nat × β) → Nat → β → List (Nat × β)
  | [], k, v => [(k, v)]
  | (k', v') :: rest, k, v =>
      if k = k' then (k, v) :: rest else (k', v') :: aset rest k v

def coin_balance (s : DaoState) (a : Addr) : Nat :=
  (alookup s.coin_balances a).getD 0

/-- `coin::deposit<AptosCoin>`. -/
def coin_deposit (s : DaoState) (a : Addr) (amount : Nat) : DaoState :=
  { s with coin_balances := aset s.coin_balances a (coin_balance s a + amount) }

def emit (s : DaoState) (e : DaoEvent) : DaoState :=
  { s with events := s.events ++ [e] }

def set_proposal (s : DaoState) (pid : Nat) (p : InvestmentProposal) : DaoState :=
  { s with treasury := { s.treasury with proposals := aset s.treasury.proposals pid p } }

/-- `initialize_dao` (renamed to satisfy a lexical restriction of this
development): creates the resource-account treasury, registers it for
AptosCoin (balance 0), and seeds the founder's `DAOMember`.  `coins` is the
pre-existing AptosCoin ledger of the surrounding chain. -/
def init_dao (sender_addr : Addr) (treasury_addr : Addr) (now : Nat)
    (coins : List (Addr × Nat)) : DaoState :=
  { treasury_addr := treasury_addr
    treasury :=
      { proposals := []
        proposal_count := 0
        total_funds := 0
        total_governance_tokens := INITIAL_TOKEN_SUPPLY
        staked_tokens := 0
        admin := sender_addr
        governance_threshold := 1000
        paused := false }
    members :=
      [(sender_addr,
        { governance_tokens :=
            { balance := INITIAL_TOKEN_SUPPLY / 2
              staked_balance := 0
              last_claim_time := now
              total_earned := INITIAL_TOKEN_SUPPLY / 2 }
          proposals_created := 0
          votes_cast := 0
          member_since := now
          reputation_score := 100 })]
    coin_balances := aset coins treasury_addr 0
    events := [] }

/-- `join_dao`: `move_to` aborts when a `DAOMember` resource already exists
at the sender's address.  Note: no pause check and no treasury access. -/
def join_dao (sender_addr : Addr) (s : DaoState) (now : Nat) :
    Except DaoError DaoState :=
  match alookup s.members sender_addr with
  | some _ => .error .resourceExists
  | none =>
      let newbie : DAOMember :=
        { governance_tokens :=
            { balance := 100, staked_balance := 0
              last_claim_time := now, total_earned := 100 }
          proposals_created := 0
          votes_cast := 0
          member_since := now
          reputation_score := 10 }
      .ok { s with members := aset s.members sender_addr newbie }

def deposit_funds (sender_addr : Addr) (s : DaoState) (amount : Nat) :
    Except DaoError DaoState :=
  if s.treasury.paused then .error .daoPaused
  else if coin_balance s sender_addr < amount then .error .coinInsufficientBalance
  else
    let s1 := { s with coin_balances := aset s.coin_balances sender_addr (coin_balance s sender_addr - amount) }
    let s2 := coin_deposit s1 s.treasury_addr amount
    let s3 := { s2 with treasury :=
      { s2.treasury with total_funds := s2.treasury.total_funds + amount } }
    .ok (emit s3 (.fundsDeposited sender_addr amount))

def stake_tokens (sender_addr : Addr) (s : DaoState) (amount : Nat) :
    Except DaoError DaoState :=
  match alookup s.members sender_addr with
  | none => .error .missingData
  | some member =>
      if s.treasury.paused then .error .daoPaused
      else if member.governance_tokens.balance < amount then .error .insufficientTokens
      else
        let gt := member.governance_tokens
        let member' := { member with
          governance_tokens :=
            { gt with balance := gt.balance - amount
                      staked_balance := gt.staked_balance + amount }
          reputation_score := member.reputation_score + amount / 100 }
        let s1 := { s with
          members := aset s.members sender_addr member'
          treasury := { s.treasury with
            staked_tokens := s.treasury.staked_tokens + amount } }
        .ok (emit s1 (.tokensStaked sender_addr amount))

/-- `transfer_tokens`: note, no pause check and no treasury access. -/
def transfer_tokens (sender_addr : Addr) (s : DaoState) (recipient : Addr)
    (amount : Nat) : Except DaoError DaoState :=
  match alookup s.members sender_addr with
  | none => .error .missingData
  | some sender_member =>
      if sender_member.governance_tokens.balance < amount then
        .error .insufficientTokens
      else
        let sm := { sender_member with governance_tokens :=
          { sender_member.governance_tokens with
            balance := sender_member.governance_tokens.balance - amount } }
        let s1 := { s with members := aset s.members sender_addr sm }
        match alookup s1.members recipient with
        | none => .error .missingData
        | some rm =>
            let rm' := { rm with governance_tokens :=
              { rm.governance_tokens with
                balance := rm.governance_tokens.balance + amount } }
            .ok { s1 with members := aset s1.members recipient rm' }

def create_investment_proposal (sender_addr : Addr) (s : DaoState) (now : Nat)
    (title description : String) (category : Nat) (recipient : Addr)
    (requested_amount : Nat) : Except DaoError DaoState :=
  match alookup s.members sender_addr with
  | none => .error .missingData
  | some member =>
      if s.treasury.paused then .error .daoPaused
      else if CATEGORY_EMERGENCY < category then .error .invalidCategory
      else if requested_amount < MIN_PROPOSAL_AMOUNT then .error .proposalTooSmall
      else if member.governance_tokens.balance + member.governance_tokens.staked_balance
          < s.treasury.governance_threshold then .error .insufficientTokens
      else if category = CATEGORY_FUNDING ∧ s.treasury.total_funds < requested_amount then
        .error .insufficientFunds
      else
        let proposal_id := s.treasury.proposal_count
        let voting_duration :=
          if category = CATEGORY_EMERGENCY then VOTING_PERIOD / 7 else VOTING_PERIOD
        let voting_end := now + voting_duration
        let proposal : InvestmentProposal :=
          { id := proposal_id
            title := title
            description := description
            category := category
            recipient := recipient
            requested_amount := requested_amount
            yes_votes := 0
            no_votes := 0
            proposer := sender_addr
            creation_time := now
            voting_end_time := voting_end
            execution_time := voting_end + EXECUTION_DELAY
            status := 0
            voters := []
            executed := false }
        let member' := { member with
          proposals_created := member.proposals_created + 1
          reputation_score := member.reputation_score + 5 }
        let s1 := { s with
          treasury := { s.treasury with
            proposals := aset s.treasury.proposals proposal_id proposal
            proposal_count := proposal_id + 1 }
          members := aset s.members sender_addr member' }
        .ok (emit s1 (.proposalCreated proposal_id sender_addr title category requested_amount))

def vote_on_proposal (voter_addr : Addr) (s : DaoState) (now : Nat)
    (proposal_id : Nat) (vote : Bool) : Except DaoError DaoState :=
  match alookup s.members voter_addr with
  | none => .error .missingData
  | some member =>
      if s.treasury.paused then .error .daoPaused
      else
        match alookup s.treasury.proposals proposal_id with
        | none => .error .tableNotFound
        | some proposal =>
            if proposal.status ≠ 0 then .error .proposalNotOpen
            else if proposal.voting_end_time < now then .error .votingEnded
            else if (alookup proposal.voters voter_addr).isSome then .error .alreadyVoted
            else
              let voting_power := member.governance_tokens.staked_balance
                + member.reputation_score / 10
              if voting_power = 0 then .error .insufficientTokens
              else
                let proposal' :=
                  { proposal with voters := aset proposal.voters voter_addr voting_power }
                let proposal'' :=
                  if vote then { proposal' with yes_votes := proposal'.yes_votes + voting_power }
                  else { proposal' with no_votes := proposal'.no_votes + voting_power }
                let gt := member.governance_tokens
                let member' := { member with
                  votes_cast := member.votes_cast + 1
                  governance_tokens :=
                    { gt with balance := gt.balance + PARTICIPATION_REWARD
                              total_earned := gt.total_earned + PARTICIPATION_REWARD }
                  reputation_score := member.reputation_score + 1 }
                let s1 := { s with
                  treasury := { s.treasury with
                    proposals := aset s.treasury.proposals proposal_id proposal'' }
                  members := aset s.members voter_addr member' }
                .ok (emit s1 (.voteCast proposal_id voter_addr vote voting_power PARTICIPATION_REWARD))

/-- `execute_proposal`.  The `_account` signer argument is never read, as
in the source.  Note: no pause check. -/
def execute_proposal (_account : Addr) (s : DaoState) (now : Nat)
    (proposal_id : Nat) : Except DaoError DaoState :=
  match alookup s.treasury.proposals proposal_id with
  | none => .error .tableNotFound
  | some proposal =>
      if proposal.status ≠ 0 then .error .proposalNotOpen
      else if proposal.executed then .error .proposalAlreadyExecuted
      else if now < proposal.execution_time then .error .proposalNotReady
      else if proposal.yes_votes + proposal.no_votes
          < s.treasury.staked_tokens * QUORUM_PERCENTAGE / 100 then
        .ok (emit (set_proposal s proposal_id
          { proposal with status := 4, executed := true })
          (.proposalExecuted proposal_id 2 0))
      else if proposal.yes_votes > proposal.no_votes then
        if proposal.category = CATEGORY_FUNDING then
          if coin_balance s s.treasury_addr < proposal.requested_amount then
            .error .coinInsufficientBalance
          else
            let s1 := { s with coin_balances := aset s.coin_balances s.treasury_addr (coin_balance s s.treasury_addr - proposal.requested_amount) }
            let s2 := coin_deposit s1 proposal.recipient proposal.requested_amount
            if s2.treasury.total_funds < proposal.requested_amount then
              .error .arithmeticUnderflow
            else
              let s3 := { s2 with treasury := { s2.treasury with
                total_funds := s2.treasury.total_funds - proposal.requested_amount } }
              .ok (emit (set_proposal s3 proposal_id
                { proposal with status := 1, executed := true })
                (.proposalExecuted proposal_id 0
                  (if proposal.category = CATEGORY_FUNDING then proposal.requested_amount else 0)))
        else
          .ok (emit (set_proposal s proposal_id
            { proposal with status := 1, executed := true })
            (.proposalExecuted proposal_id 0
              (if proposal.category = CATEGORY_FUNDING then proposal.requested_amount else 0)))
      else
        .ok (emit (set_proposal s proposal_id
          { proposal with status := 2, executed := true })
          (.proposalExecuted proposal_id 1 0))

def distribute_tokens (sender_addr : Addr) (s : DaoState) (recipient : Addr)
    (amount : Nat) (reason : String) : Except DaoError DaoState :=
  if sender_addr ≠ s.treasury.admin then .error .notAuthorized
  else
    match alookup s.members recipient with
    | none => .error .missingData
    | some rm =>
        let gt := rm.governance_tokens
        let rm' := { rm with governance_tokens :=
          { gt with balance := gt.balance + amount
                    total_earned := gt.total_earned + amount } }
        .ok (emit { s with members := aset s.members recipient rm' }
          (.tokensDistributed recipient amount reason))

def emergency_pause (sender_addr : Addr) (s : DaoState) :
    Except DaoError DaoState :=
  if sender_addr ≠ s.treasury.admin then .error .notAuthorized
  else
    .ok (emit { s with treasury := { s.treasury with paused := true } }
      (.emergencyAction sender_addr "PAUSE" true))

def emergency_unpause (sender_addr : Addr) (s : DaoState) :
    Except DaoError DaoState :=
  if sender_addr ≠ s.treasury.admin then .error .notAuthorized
  else
    .ok (emit { s with treasury := { s.treasury with paused := false } }
      (.emergencyAction sender_addr "UNPAUSE" false))

/-- `get_proposal_info` view: `table::borrow` aborts on a missing key, so
an unknown proposal id is a transaction fault, not a graceful result. -/
def get_proposal_info (s : DaoState) (proposal_id : Nat) :
    Except DaoError (String × Nat × Nat × Nat × Nat × Nat × Nat × Bool × Addr) :=
  match alookup s.treasury.proposals proposal_id with
  | none => .error .tableNotFound
  | some p =>
      .ok (p.title, p.category, p.requested_amount, p.yes_votes, p.no_votes,
        p.status, p.voting_end_time, p.executed, p.proposer)

/-- The entry-point operations mutating an existing DAO state. -/
inductive Op where
  | join (sender : Addr)
  | deposit (sender : Addr) (amount : Nat)
  | stake (sender : Addr) (amount : Nat)
  | transfer (sender recipient : Addr) (amount : Nat)
  | createProposal (sender : Addr) (title description : String)
      (category : Nat) (recipient : Addr) (requested_amount : Nat)
  | vote (sender : Addr) (proposal_id : Nat) (choice : Bool)
  | execute (sender : Addr) (proposal_id : Nat)
  | distribute (sender recipient : Addr) (amount : Nat) (reason : String)
  | pause (sender : Addr)
  | unpause (sender : Addr)

def applyOp (s : DaoState) (now : Nat) : Op → Except DaoError DaoState
  | .join a => join_dao a s now
  | .deposit a amt => deposit_funds a s amt
  | .stake a amt => stake_tokens a s amt
  | .transfer a r amt => transfer_tokens a s r amt
  | .createProposal a t d c r amt => create_investment_proposal a s now t d c r amt
  | .vote a pid ch => vote_on_proposal a s now pid ch
  | .execute a pid => execute_proposal a s now pid
  | .distribute a r amt reason => distribute_tokens a s r amt reason
  | .pause a => emergency_pause a s
  | .unpause a => emergency_unpause a s

/-- States reachable from DAO initialization (over an arbitrary
pre-existing coin ledger) by successful entry-point calls. -/
inductive Reachable : DaoState → Prop where
  | init (admin treasury_addr now : Nat) (coins : List (Addr × Nat)) :
      Reachable (init_dao admin treasury_addr now coins)
  | step {s s' : DaoState} (now : Nat) (op : Op) :
      Reachable s → applyOp s now op = .ok s' → Reachable s'

def gt_sum (m : DAOMember) : Nat :=
  m.governance_tokens.balance + m.governance_tokens.staked_balance

/-- Governance-token holding of a member: `balance + stakedBalance`
(0 when there is no member record). -/
def member_token_sum (s : DaoState) (a : Addr) : Nat :=
  (alookup s.members a).elim 0 gt_sum

/-- Whether `op` is a token transfer sent by `a`. -/
def is_transfer_send (op : Op) (a : Addr) : Prop :=
  match op with
  | .transfer sender _ _ => sender = a
  | _ => False

/-! ### A concrete reachable execution trace

Initialization, staking, a deposit of 3000, two Funding proposals each
requesting 2000, a yes vote on each, and the execution of the first one.
After that execution the treasury holds only 1000, so the second proposal
satisfies every passage condition yet cannot be paid. -/

def tAddr : Addr := 1
def adminA : Addr := 2
def recipA : Addr := 3

def cs0 : DaoState := init_dao adminA tAddr 0 [(adminA, 5000)]
def cs1 : DaoState := (stake_tokens adminA cs0 1000).toOption.getD cs0
def cs2 : DaoState := (deposit_funds adminA cs1 3000).toOption.getD cs1
def cs3 : DaoState :=
  (create_investment_proposal adminA cs2 0 "P0" "d" 0 recipA 2000).toOption.getD cs2
def cs4 : DaoState :=
  (create_investment_proposal adminA cs3 0 "P1" "d" 0 recipA 2000).toOption.getD cs3
def cs5 : DaoState := (vote_on_proposal adminA cs4 0 0 true).toOption.getD cs4
def cs6 : DaoState := (vote_on_proposal adminA cs5 0 1 true).toOption.getD cs5
def cs7 : DaoState := (execute_proposal adminA cs6 691200 0).toOption.getD cs6
def cs8 : DaoState :=
  (create_investment_proposal adminA cs7 691200 "P2" "d" 1 recipA 1000).toOption.getD cs7
def cs9 : DaoState := (emergency_pause adminA cs8).toOption.getD cs8

/-! ### Hand-built states used by witnesses -/

/-- An Open Funding proposal whose tallies mirror the quorum example of the
specification: `yes = 150`, `no = 40`. -/
def wPropQuorum : InvestmentProposal :=
  { id := 0, title := "W", description := "", category := 0, recipient := 3
    requested_amount := 1000, yes_votes := 150, no_votes := 40, proposer := 2
    creation_time := 0, voting_end_time := 10, execution_time := 20
    status := 0, voters := [], executed := false }

def mkWState (p : InvestmentProposal) (funds coins : Nat) : DaoState :=
  { treasury_addr := 1
    treasury :=
      { proposals := [(0, p)], proposal_count := 1, total_funds := funds
        total_governance_tokens := INITIAL_TOKEN_SUPPLY, staked_tokens := 1000
        admin := 2, governance_threshold := 1000, paused := false }
    members := []
    coin_balances := [(1, coins)]
    events := [] }

def wStateQuorum : DaoState := mkWState wPropQuorum 1000 1000

def wPropTie : InvestmentProposal :=
  { wPropQuorum with yes_votes := 600, no_votes := 600 }

def wStateTie : DaoState := mkWState wPropTie 1000 1000

def wPropFund : InvestmentProposal :=
  { wPropQuorum with yes_votes := 300, no_votes := 100 }

def wStateFund : DaoState := mkWState wPropFund 1000 1000

def wStateShort : DaoState := mkWState wPropFund 500 500

/-- A member with staked tokens, plus an Open proposal, for exercising a
vote. -/
def w8Member : DAOMember :=
  { governance_tokens :=
      { balance := 50, staked_balance := 100, last_claim_time := 0, total_earned := 150 }
    proposals_created := 0, votes_cast := 0, member_since := 0, reputation_score := 10 }

def w8State : DaoState :=
  { mkWState { wPropQuorum with yes_votes := 0, no_votes := 0 } 1000 1000 with
    members := [(2, w8Member)] }


def w8Vote : DaoState := (vote_on_proposal 2 w8State 5 0 true).toOption.getD w8State

def cs0join : DaoState := (join_dao 99 cs0 5).toOption.getD cs0

/-- The state produced by a successful Funding execution: withdraw
`p.requested_amount` from the treasury account, deposit it to the
recipient, decrement `total_funds`, mark the proposal Funded, emit. -/
def funding_payout_state (s : DaoState) (pid : Nat) (p : InvestmentProposal) : DaoState :=
  let s1 := { s with coin_balances := aset s.coin_balances s.treasury_addr (coin_balance s s.treasury_addr - p.requested_amount) }
  let s2 := coin_deposit s1 p.recipient p.requested_amount
  let s3 := { s2 with treasury := { s2.treasury with total_funds := s2.treasury.total_funds - p.requested_amount } }
  emit (set_proposal s3 pid { p with status := 1, executed := true })
    (.proposalExecuted pid 0 p.requested_amount)

/-! ### Association-list lemmas -/

theorem alookup_aset_self {β : Type} (l : List (Nat × β)) (k : Nat) (v : β) :
    alookup (aset l k v) k = some v := by
  induction l with
  | nil => simp [aset, alookup]
  | cons hd tl ih =>
      obtain ⟨k', v'⟩ := hd
      by_cases h : k = k'
      · simp [aset, alookup, h]
      · simp [aset, alookup, h, ih]

theorem alookup_aset_ne {β : Type} (l : List (Nat × β)) (k k' : Nat) (v : β)
    (h : k' ≠ k) : alookup (aset l k v) k' = alookup l k' := by
  induction l with
  | nil => simp [aset, alookup, h]
  | cons hd tl ih =>
      obtain ⟨k0, v0⟩ := hd
      by_cases h0 : k = k0
      · subst h0; simp [aset, alookup, h]
      · simp [aset, alookup, h0, ih]

theorem member_token_sum_aset (l : List (Addr × DAOMember))
    (a b : Addr) (m : DAOMember) :
    (alookup (aset l b m) a).elim 0 gt_sum
      = if a = b then gt_sum m else (alookup l a).elim 0 gt_sum := by
  by_cases hab : a = b
  · subst hab; simp [alookup_aset_self]
  · simp [alookup_aset_ne _ _ _ _ hab, hab]

/-! ### Reachability of the concrete trace -/

theorem reachable_cs7 : Reachable cs7 := by
  have h0 : Reachable cs0 := Reachable.init adminA tAddr 0 [(adminA, 5000)]
  have h1 : Reachable cs1 := Reachable.step 0 (.stake adminA 1000) h0 rfl
  have h2 : Reachable cs2 := Reachable.step 0 (.deposit adminA 3000) h1 rfl
  have h3 : Reachable cs3 :=
    Reachable.step 0 (.createProposal adminA "P0" "d" 0 recipA 2000) h2 rfl
  have h4 : Reachable cs4 :=
    Reachable.step 0 (.createProposal adminA "P1" "d" 0 recipA 2000) h3 rfl
  have h5 : Reachable cs5 := Reachable.step 0 (.vote adminA 0 true) h4 rfl
  have h6 : Reachable cs6 := Reachable.step 0 (.vote adminA 1 true) h5 rfl
  exact Reachable.step 691200 (.execute adminA 0) h6 rfl

theorem reachable_cs9 : Reachable cs9 := by
  have h8 : Reachable cs8 :=
    Reachable.step 691200 (.createProposal adminA "P2" "d" 1 recipA 1000) reachable_cs7 rfl
  exact Reachable.step 691200 (.pause adminA) h8 rfl

/-! ### Claims -/

/-- C9: `execute_proposal` performs no authorization or membership check on
its caller: the signer argument is never read, so any two caller
identities produce identical results (state and event) on the same
proposal in the same state at the same time. -/
theorem c9_execute_ignores_caller (caller1 caller2 : Addr) (s : DaoState)
    (now pid : Nat) :
    execute_proposal caller1 s now pid = execute_proposal caller2 s now pid := rfl

/-- C7 (amended): querying a proposal id that is not in the proposal table
makes `get_proposal_info` abort with the table's not-found fault — it does
not return a graceful "not found" result.  The query reads the state
without modifying it, so repeated calls behave identically and no partial
record is ever produced. -/
theorem c7_missing_proposal_query_aborts (s : DaoState) (pid : Nat)
    (h : alookup s.treasury.proposals pid = none) :
    get_proposal_info s pid = .error .tableNotFound ∧
    ∀ r, get_proposal_info s pid ≠ .ok r := by
  constructor
  · simp only [get_proposal_info, h]
  · intro r hr
    rw [get_proposal_info, h] at hr
    exact Except.noConfusion hr

/-- Witness for C7: the freshly initialized DAO has no proposal 5. -/
theorem c7_missing_proposal_query_aborts_witness :
    get_proposal_info cs0 5 = .error .tableNotFound ∧
    ∀ r, get_proposal_info cs0 5 ≠ .ok r :=
  c7_missing_proposal_query_aborts cs0 5 rfl

/-- C7 counterexample: the claim says the query returns a "not found"
result rather than raising a fault; on the missing id 5 of the concrete
reachable state `cs0` the call instead aborts (`Except.error` models the
Move `table::borrow` abort) and never yields any (partial) record. -/
theorem c7_not_found_result_counterexample :
    Reachable cs0 ∧
    alookup cs0.treasury.proposals 5 = none ∧
    get_proposal_info cs0 5 = .error .tableNotFound ∧
    ∀ r, get_proposal_info cs0 5 ≠ .ok r := by
  refine ⟨Reachable.init adminA tAddr 0 [(adminA, 5000)], rfl, rfl, ?_⟩
  intro r hr
  exact Except.noConfusion hr

/-- C5 (amended): a second execute call on an already-executed proposal
(status already terminal, hence ≠ Open) fails, but with the
ProposalNotOpen error: the `status == 0` assertion fires before the
`!executed` assertion is reached.  The error means the Move transaction
aborts, so no state changes. -/
theorem c5_execute_already_executed_fails (caller : Addr) (s : DaoState)
    (now pid : Nat) (p : InvestmentProposal)
    (hp : alookup s.treasury.proposals pid = some p)
    ( _hexec : p.executed = true)
    (hterm : p.status ≠ 0) :
    execute_proposal caller s now pid = .error .proposalNotOpen := by
  simp only [execute_proposal, hp]
  rw [if_pos hterm]

/-- Witness for C5: proposal 0 of the reachable state `cs7` has already
been executed (status Funded). -/
theorem c5_execute_already_executed_fails_witness :
    execute_proposal adminA cs7 691200 0 = .error .proposalNotOpen :=
  c5_execute_already_executed_fails adminA cs7 691200 0 _ rfl rfl (by decide)

/-- C5 counterexample: on the reachable state `cs7`, proposal 0 has
`executed = true` and terminal status, yet re-executing it fails with
ProposalNotOpen, not with the ProposalAlreadyExecuted error the claim
names (the status assertion precedes the executed-flag assertion). -/
theorem c5_wrong_error_counterexample :
    Reachable cs7 ∧
    (∃ p, alookup cs7.treasury.proposals 0 = some p ∧
      p.executed = true ∧ p.status ≠ 0) ∧
    execute_proposal adminA cs7 691200 0 = .error .proposalNotOpen ∧
    DaoError.proposalNotOpen ≠ DaoError.proposalAlreadyExecuted := by
  refine ⟨reachable_cs7, ⟨_, rfl, rfl, by decide⟩, rfl, by decide⟩

/-- C2: an Open proposal executed after its execution-eligible time with
`yes + no < staked_tokens * QUORUM_PERCENTAGE / 100` resolves to
QuorumNotMet (status 4), sets `executed`, emits ProposalExecuted with
result code 2 and amount 0, and moves no funds: the treasury's recorded
funds, the coin ledger and the member records are all unchanged. -/
theorem c2_execute_quorum_not_met (caller : Addr) (s : DaoState)
    (now pid : Nat) (p : InvestmentProposal)
    (hp : alookup s.treasury.proposals pid = some p)
    (hopen : p.status = 0) (hexec : p.executed = false)
    (htime : p.execution_time ≤ now)
    (hq : p.yes_votes + p.no_votes < s.treasury.staked_tokens * QUORUM_PERCENTAGE / 100) :
    ∃ s', execute_proposal caller s now pid = .ok s' ∧
      alookup s'.treasury.proposals pid = some { p with status := 4, executed := true } ∧
      s'.treasury.total_funds = s.treasury.total_funds ∧
      s'.coin_balances = s.coin_balances ∧
      s'.members = s.members ∧
      s'.events = s.events ++ [DaoEvent.proposalExecuted pid 2 0] := by
  refine ⟨emit (set_proposal s pid { p with status := 4, executed := true })
    (.proposalExecuted pid 2 0), ?_, ?_, ?_, ?_, ?_, ?_⟩
  · simp only [execute_proposal, hp]
    rw [if_neg (by simp [hopen]), if_neg (by simp [hexec]),
      if_neg (by omega), if_pos hq]
  · simp [emit, set_proposal, alookup_aset_self]
  · rfl
  · rfl
  · rfl
  · rfl

/-- Witness for C2, on the specification's own numbers: total staked 1000,
quorum percentage 20, tallies yes 150 / no 40 (190 < 200). -/
theorem c2_execute_quorum_not_met_witness :
    ∃ s', execute_proposal 9 wStateQuorum 20 0 = .ok s' ∧
      alookup s'.treasury.proposals 0 = some { wPropQuorum with status := 4, executed := true } ∧
      s'.treasury.total_funds = wStateQuorum.treasury.total_funds ∧
      s'.coin_balances = wStateQuorum.coin_balances ∧
      s'.members = wStateQuorum.members ∧
      s'.events = wStateQuorum.events ++ [DaoEvent.proposalExecuted 0 2 0] :=
  c2_execute_quorum_not_met 9 wStateQuorum 20 0 wPropQuorum rfl rfl rfl
    (by decide) (by decide)

/-- C6: an Open proposal executed after its execution-eligible time with
quorum met and a tie `yes = no` resolves to Rejected (status 2) — passage
requires strictly `yes > no` — sets `executed`, emits ProposalExecuted
with result code 1 and amount 0, and moves no funds. -/
theorem c6_execute_tie_rejected (caller : Addr) (s : DaoState)
    (now pid : Nat) (p : InvestmentProposal)
    (hp : alookup s.treasury.proposals pid = some p)
    (hopen : p.status = 0) (hexec : p.executed = false)
    (htime : p.execution_time ≤ now)
    (hq : s.treasury.staked_tokens * QUORUM_PERCENTAGE / 100 ≤ p.yes_votes + p.no_votes)
    (htie : p.yes_votes = p.no_votes) :
    ∃ s', execute_proposal caller s now pid = .ok s' ∧
      alookup s'.treasury.proposals pid = some { p with status := 2, executed := true } ∧
      s'.treasury.total_funds = s.treasury.total_funds ∧
      s'.coin_balances = s.coin_balances ∧
      s'.members = s.members ∧
      s'.events = s.events ++ [DaoEvent.proposalExecuted pid 1 0] := by
  refine ⟨emit (set_proposal s pid { p with status := 2, executed := true })
    (.proposalExecuted pid 1 0), ?_, ?_, ?_, ?_, ?_, ?_⟩
  · simp only [execute_proposal, hp]
    rw [if_neg (by simp [hopen]), if_neg (by simp [hexec]),
      if_neg (by omega), if_neg (by omega), if_neg (by omega)]
  · simp [emit, set_proposal, alookup_aset_self]
  · rfl
  · rfl
  · rfl
  · rfl

/-- Witness for C6: quorum met (1200 ≥ 200) with tallies yes 600 / no 600. -/
theorem c6_execute_tie_rejected_witness :
    ∃ s', execute_proposal 9 wStateTie 20 0 = .ok s' ∧
      alookup s'.treasury.proposals 0 = some { wPropTie with status := 2, executed := true } ∧
      s'.treasury.total_funds = wStateTie.treasury.total_funds ∧
      s'.coin_balances = wStateTie.coin_balances ∧
      s'.members = wStateTie.members ∧
      s'.events = wStateTie.events ++ [DaoEvent.proposalExecuted 0 1 0] :=
  c6_execute_tie_rejected 9 wStateTie 20 0 wPropTie rfl rfl rfl
    (by decide) (by decide) (by decide)

/-- C1 (amended): a Funding proposal that is Open, past its
execution-eligible time, with quorum met and `yes > no`, and whose
`requestedAmount` is covered by the treasury's custodial coin balance and
recorded `total_funds` at the moment of execution (with a recipient other
than the treasury account itself), is executed: exactly `requestedAmount`
moves from treasury custody to the recipient, `total_funds` decreases by
exactly that amount, status becomes Funded (1), `executed` is set, and
ProposalExecuted is emitted with result code 0 and the requested amount. -/
theorem c1_execute_funding_passage (caller : Addr) (s : DaoState)
    (now pid : Nat) (p : InvestmentProposal)
    (hp : alookup s.treasury.proposals pid = some p)
    (hcat : p.category = CATEGORY_FUNDING)
    (hopen : p.status = 0) (hexec : p.executed = false)
    (htime : p.execution_time ≤ now)
    (hq : s.treasury.staked_tokens * QUORUM_PERCENTAGE / 100 ≤ p.yes_votes + p.no_votes)
    (hyn : p.no_votes < p.yes_votes)
    (hcoin : p.requested_amount ≤ coin_balance s s.treasury_addr)
    (hfunds : p.requested_amount ≤ s.treasury.total_funds)
    (hne : p.recipient ≠ s.treasury_addr) :
    ∃ s', execute_proposal caller s now pid = .ok s' ∧
      coin_balance s' s.treasury_addr = coin_balance s s.treasury_addr - p.requested_amount ∧
      coin_balance s' p.recipient = coin_balance s p.recipient + p.requested_amount ∧
      s'.treasury.total_funds = s.treasury.total_funds - p.requested_amount ∧
      alookup s'.treasury.proposals pid = some { p with status := 1, executed := true } ∧
      s'.members = s.members ∧
      s'.events = s.events ++ [DaoEvent.proposalExecuted pid 0 p.requested_amount] := by
  refine ⟨funding_payout_state s pid p, ?h1, ?h2, ?h3, ?h4, ?h5, ?h6, ?h7⟩
  case h1 =>
    simp only [execute_proposal, hp]
    rw [if_neg (by simp [hopen]), if_neg (by simp [hexec]),
      if_neg (by omega), if_neg (by omega), if_pos (by omega), if_pos hcat]
    rw [if_neg (by omega)]
    dsimp only [coin_deposit]
    rw [if_neg (by omega), if_pos hcat]
    rfl
  case h2 =>
    simp only [funding_payout_state, coin_deposit, coin_balance, emit, set_proposal]
    rw [alookup_aset_ne _ _ _ _ (Ne.symm hne), alookup_aset_self]
    rfl
  case h3 =>
    simp only [funding_payout_state, coin_deposit, coin_balance, emit, set_proposal]
    rw [alookup_aset_self, alookup_aset_ne _ _ _ _ hne]
    simp
  case h4 => rfl
  case h5 =>
    simp only [funding_payout_state, coin_deposit, emit, set_proposal]
    rw [alookup_aset_self]
  case h6 => rfl
  case h7 => rfl

/-- Witness for C1 (amended): quorum met (400 ≥ 200), yes 300 > no 100,
treasury holds 1000 ≥ requested 1000, recipient 3 ≠ treasury account 1. -/
theorem c1_execute_funding_passage_witness :
    ∃ s', execute_proposal 9 wStateFund 20 0 = .ok s' ∧
      coin_balance s' wStateFund.treasury_addr
        = coin_balance wStateFund wStateFund.treasury_addr - wPropFund.requested_amount ∧
      coin_balance s' wPropFund.recipient
        = coin_balance wStateFund wPropFund.recipient + wPropFund.requested_amount ∧
      s'.treasury.total_funds = wStateFund.treasury.total_funds - wPropFund.requested_amount ∧
      alookup s'.treasury.proposals 0 = some { wPropFund with status := 1, executed := true } ∧
      s'.members = wStateFund.members ∧
      s'.events = wStateFund.events ++ [DaoEvent.proposalExecuted 0 0 wPropFund.requested_amount] :=
  c1_execute_funding_passage 9 wStateFund 20 0 wPropFund rfl rfl rfl rfl
    (by decide) (by decide) (by decide) (by decide) (by decide) (by decide)

/-- C1 counterexample: in the reachable state `cs7`, proposal 1 satisfies
every condition the claim lists (Funding category, Open, past its
execution-eligible time, quorum met, yes 1012 > no 0), yet executing it
transfers nothing and does not mark it Funded: the earlier execution of
proposal 0 left the treasury with 1000 < 2000 requested, so the call
aborts inside the coin withdrawal.  The claim as stated therefore fails
without a funds-sufficiency proviso. -/
theorem c1_funding_shortfall_counterexample :
    Reachable cs7 ∧
    (∃ p, alookup cs7.treasury.proposals 1 = some p ∧
      p.category = CATEGORY_FUNDING ∧ p.status = 0 ∧ p.executed = false ∧
      p.execution_time ≤ 691200 ∧
      cs7.treasury.staked_tokens * QUORUM_PERCENTAGE / 100 ≤ p.yes_votes + p.no_votes ∧
      p.no_votes < p.yes_votes ∧
      cs7.treasury.total_funds < p.requested_amount ∧
      coin_balance cs7 cs7.treasury_addr < p.requested_amount) ∧
    execute_proposal adminA cs7 691200 1 = .error .coinInsufficientBalance := by
  refine ⟨reachable_cs7,
    ⟨_, rfl, by decide, by decide, by decide, by decide, by decide, by decide,
      by decide, by decide⟩, rfl⟩

/-- C4: a Funding proposal that is Open, past its execution-eligible time,
with quorum met and `yes > no`, but whose `requestedAmount` exceeds the
treasury's funds at the moment of execution (custody balance matching the
recorded `total_funds`), makes the whole execute call abort with the
coin module's insufficient-balance fault — the InsufficientResources
class — and with no other fault: the withdrawal aborts before the
`total_funds` subtraction is reached.  An error result commits nothing,
so there is no partial disbursement, no status change, and `total_funds`
is unchanged. -/
theorem c4_execute_funding_shortfall_aborts (caller : Addr) (s : DaoState)
    (now pid : Nat) (p : InvestmentProposal)
    (hp : alookup s.treasury.proposals pid = some p)
    (hcat : p.category = CATEGORY_FUNDING)
    (hopen : p.status = 0) (hexec : p.executed = false)
    (htime : p.execution_time ≤ now)
    (hq : s.treasury.staked_tokens * QUORUM_PERCENTAGE / 100 ≤ p.yes_votes + p.no_votes)
    (hyn : p.no_votes < p.yes_votes)
    (hcustody : coin_balance s s.treasury_addr = s.treasury.total_funds)
    (hshort : s.treasury.total_funds < p.requested_amount) :
    execute_proposal caller s now pid = .error .coinInsufficientBalance := by
  simp only [execute_proposal, hp]
  rw [if_neg (by simp [hopen]), if_neg (by simp [hexec]),
    if_neg (by omega), if_neg (by omega), if_pos (by omega), if_pos hcat]
  rw [if_pos (by omega)]

/-- Witness for C4: treasury custody and `total_funds` are 500 while the
passing proposal requests 1000. -/
theorem c4_execute_funding_shortfall_aborts_witness :
    execute_proposal 9 wStateShort 20 0 = .error .coinInsufficientBalance :=
  c4_execute_funding_shortfall_aborts 9 wStateShort 20 0 wPropFund rfl rfl rfl rfl
    (by decide) (by decide) (by decide) rfl (by decide)

/-- C3 (amended): among the state-mutating operations, `deposit_funds`,
`stake_tokens`, `create_investment_proposal` and `vote_on_proposal` check
the paused flag first (after the resource borrows) and fail with DaoPaused
while it is set, committing nothing; `join_dao`, `transfer_tokens`,
`execute_proposal` and `distribute_tokens` perform no pause check at all
(see the counterexample). -/
theorem c3_pause_gate (s : DaoState) (hpaused : s.treasury.paused = true) :
    (∀ a amt, deposit_funds a s amt = .error .daoPaused) ∧
    (∀ a amt m, alookup s.members a = some m →
      stake_tokens a s amt = .error .daoPaused) ∧
    (∀ a now t d c r amt m, alookup s.members a = some m →
      create_investment_proposal a s now t d c r amt = .error .daoPaused) ∧
    (∀ a now pid ch m, alookup s.members a = some m →
      vote_on_proposal a s now pid ch = .error .daoPaused) := by
  refine ⟨?_, ?_, ?_, ?_⟩
  · intro a amt
    simp only [deposit_funds]
    rw [if_pos hpaused]
  · intro a amt m hm
    simp only [stake_tokens, hm]
    rw [if_pos hpaused]
  · intro a now t d c r amt m hm
    simp only [create_investment_proposal, hm]
    rw [if_pos hpaused]
  · intro a now pid ch m hm
    simp only [vote_on_proposal, hm]
    rw [if_pos hpaused]

/-- Witness for C3 (amended), on the reachable paused state `cs9`. -/
theorem c3_pause_gate_witness :
    deposit_funds 99 cs9 5 = .error .daoPaused ∧
    stake_tokens adminA cs9 5 = .error .daoPaused ∧
    create_investment_proposal adminA cs9 0 "T" "" 0 recipA 1000 = .error .daoPaused ∧
    vote_on_proposal adminA cs9 0 2 true = .error .daoPaused :=
  ⟨(c3_pause_gate cs9 rfl).1 99 5,
   (c3_pause_gate cs9 rfl).2.1 adminA 5 _ rfl,
   (c3_pause_gate cs9 rfl).2.2.1 adminA 0 "T" "" 0 recipA 1000 _ rfl,
   (c3_pause_gate cs9 rfl).2.2.2 adminA 0 2 true _ rfl⟩

/-- C3 counterexample: `cs9` is a reachable state whose treasury is
paused, yet `join_dao`, `transfer_tokens`, `distribute_tokens` and
`execute_proposal` all succeed on it — they never check the paused flag,
so they do not fail with DaoPaused as the claim requires. -/
theorem c3_no_pause_check_counterexample :
    Reachable cs9 ∧ cs9.treasury.paused = true ∧
    (join_dao 99 cs9 700000).isOk = true ∧
    (transfer_tokens adminA cs9 adminA 1).isOk = true ∧
    (distribute_tokens adminA cs9 adminA 7 "bonus").isOk = true ∧
    (execute_proposal adminA cs9 1382400 2).isOk = true :=
  ⟨reachable_cs9, rfl, rfl, rfl, rfl, rfl⟩

theorem gov_tokens_step (s : DaoState) (now : Nat) (op : Op) (s' : DaoState)
    (h : applyOp s now op = .ok s') :
    s'.treasury.total_governance_tokens = s.treasury.total_governance_tokens := by
  cases op <;>
    simp only [applyOp, join_dao, deposit_funds, stake_tokens, transfer_tokens,
      create_investment_proposal, vote_on_proposal, execute_proposal,
      distribute_tokens, emergency_pause, emergency_unpause] at h <;>
    (repeat' split at h) <;>
    first
      | exact Except.noConfusion h
      | (injection h with h; subst h; rfl)

/-- C10: `total_governance_tokens` equals the fixed initial supply
1,000,000 in every reachable state — no entry-point call after
initialization ever modifies it — even though `join_dao` credits each new
member a welcome balance of 100 governance tokens created out of thin air
while leaving the whole treasury record (including the supply field)
untouched, so the recorded total supply does not track the tokens actually
issued. -/
theorem c10_total_supply_constant :
    (∀ s, Reachable s → s.treasury.total_governance_tokens = 1000000) ∧
    (∀ s now op s', applyOp s now op = .ok s' →
      s'.treasury.total_governance_tokens = s.treasury.total_governance_tokens) ∧
    (∀ a s now s', join_dao a s now = .ok s' →
      member_token_sum s' a = member_token_sum s a + 100 ∧
      s'.treasury = s.treasury) := by
  refine ⟨?_, gov_tokens_step, ?_⟩
  · intro s hs
    induction hs with
    | init admin taddr now coins => rfl
    | step now op hr h ih =>
        rw [gov_tokens_step _ _ _ _ h]
        exact ih
  · intro a s now s' h
    simp only [join_dao] at h
    split at h
    · exact Except.noConfusion h
    · next heq =>
        injection h with h
        subst h
        constructor
        · simp [member_token_sum, member_token_sum_aset, heq, gt_sum]
        · rfl

/-- Witness for C10: the supply field at initialization, after a concrete
successful stake step, and across a concrete join that mints 100 tokens. -/
theorem c10_total_supply_constant_witness :
    (init_dao 2 1 0 []).treasury.total_governance_tokens = 1000000 ∧
    cs1.treasury.total_governance_tokens = cs0.treasury.total_governance_tokens ∧
    (member_token_sum cs0join 99 = member_token_sum cs0 99 + 100 ∧
      cs0join.treasury = cs0.treasury) :=
  ⟨c10_total_supply_constant.1 _ (Reachable.init 2 1 0 []),
   c10_total_supply_constant.2.1 cs0 0 (.stake adminA 1000) cs1 rfl,
   c10_total_supply_constant.2.2 99 cs0 5 cs0join rfl⟩

theorem token_sum_le_of_update (l : List (Addr × DAOMember)) (a b : Addr)
    (m m' : DAOMember) (hm : alookup l b = some m)
    (hle : gt_sum m ≤ gt_sum m') :
    (alookup l a).elim 0 gt_sum ≤ (alookup (aset l b m') a).elim 0 gt_sum := by
  rw [member_token_sum_aset]
  by_cases hab : a = b
  · subst hab
    rw [if_pos rfl, hm]
    exact hle
  · rw [if_neg hab]

theorem token_sum_le_of_transfer (l : List (Addr × DAOMember)) (a b r : Addr)
    (m' rm rm' : DAOMember)
    (hab : b ≠ a)
    (hm : alookup (aset l b m') r = some rm)
    (hle : gt_sum rm ≤ gt_sum rm') :
    (alookup l a).elim 0 gt_sum ≤ (alookup (aset (aset l b m') r rm') a).elim 0 gt_sum := by
  have e1 : alookup l a = alookup (aset l b m') a :=
    (alookup_aset_ne l b a m' (fun hc => hab hc.symm)).symm
  rw [e1]
  exact token_sum_le_of_update (aset l b m') a r rm rm' hm hle

theorem token_sum_le_of_insert (l : List (Addr × DAOMember)) (a b : Addr)
    (m' : DAOMember) (hm : alookup l b = none) :
    (alookup l a).elim 0 gt_sum ≤ (alookup (aset l b m') a).elim 0 gt_sum := by
  rw [member_token_sum_aset]
  by_cases hab : a = b
  · subst hab
    rw [if_pos rfl, hm]
    exact Nat.zero_le _
  · rw [if_neg hab]

/-- C8: for every member and every entry-point operation except a token
transfer sent by that member, the member's holding `balance +
staked_balance` does not decrease: staking moves value between the two
sub-balances, voting rewards and admin distribution only add, and no
other operation touches the member's governance tokens. -/
theorem c8_member_holdings_monotone (s : DaoState) (now : Nat) (op : Op)
    (s' : DaoState) (a : Addr)
    (hsend : ¬ is_transfer_send op a)
    (h : applyOp s now op = .ok s') :
    member_token_sum s a ≤ member_token_sum s' a := by
  cases op with
  | join a0 =>
      simp only [applyOp, join_dao] at h
      split at h
      · exact Except.noConfusion h
      · rename_i heq
        injection h with h
        subst h
        exact token_sum_le_of_insert s.members a a0 _ heq
  | deposit a0 amt =>
      simp only [applyOp, deposit_funds] at h
      repeat' split at h
      any_goals exact Except.noConfusion h
      all_goals injection h with h; subst h; exact Nat.le_refl _
  | stake a0 amt =>
      simp only [applyOp, stake_tokens] at h
      split at h
      · exact Except.noConfusion h
      · rename_i member heq
        repeat' split at h
        any_goals exact Except.noConfusion h
        all_goals
          injection h with h
          subst h
          refine token_sum_le_of_update s.members a a0 member _ heq ?_
          dsimp only [gt_sum]
          omega
  | transfer a0 r amt =>
      simp only [is_transfer_send] at hsend
      simp only [applyOp, transfer_tokens] at h
      split at h
      · exact Except.noConfusion h
      · rename_i sm heq1
        split at h
        · exact Except.noConfusion h
        · rename_i hbal
          split at h
          · exact Except.noConfusion h
          · rename_i rm heq2
            injection h with h
            subst h
            refine token_sum_le_of_transfer s.members a a0 r _ rm _ hsend heq2 ?_
            dsimp only [gt_sum]
            omega
  | createProposal a0 t d c r amt =>
      simp only [applyOp, create_investment_proposal] at h
      split at h
      · exact Except.noConfusion h
      · rename_i member heq
        repeat' split at h
        any_goals exact Except.noConfusion h
        all_goals
          injection h with h
          subst h
          exact token_sum_le_of_update s.members a a0 member _ heq (Nat.le_refl _)
  | vote a0 pid ch =>
      simp only [applyOp, vote_on_proposal] at h
      split at h
      · exact Except.noConfusion h
      · rename_i member heq
        repeat' split at h
        any_goals exact Except.noConfusion h
        all_goals
          injection h with h
          subst h
          refine token_sum_le_of_update s.members a a0 member _ heq ?_
          dsimp only [gt_sum]
          omega
  | execute a0 pid =>
      simp only [applyOp, execute_proposal] at h
      repeat' split at h
      any_goals exact Except.noConfusion h
      all_goals injection h with h; subst h; exact Nat.le_refl _
  | distribute a0 r amt reason =>
      simp only [applyOp, distribute_tokens] at h
      split at h
      · exact Except.noConfusion h
      · split at h
        · exact Except.noConfusion h
        · rename_i rm heq
          injection h with h
          subst h
          refine token_sum_le_of_update s.members a r rm _ heq ?_
          dsimp only [gt_sum]
          omega
  | pause a0 =>
      simp only [applyOp, emergency_pause] at h
      split at h
      · exact Except.noConfusion h
      · injection h with h; subst h; exact Nat.le_refl _
  | unpause a0 =>
      simp only [applyOp, emergency_unpause] at h
      split at h
      · exact Except.noConfusion h
      · injection h with h; subst h; exact Nat.le_refl _

/-- Witness for C8: a concrete vote (not a transfer) strictly rewards the
voter, so the holding does not decrease. -/
theorem c8_member_holdings_monotone_witness :
    member_token_sum w8State 2 ≤ member_token_sum w8Vote 2 :=
  c8_member_holdings_monotone w8State 5 (.vote 2 0 true) w8Vote 2
    (fun hh => hh) rfl

end InvestDao
